import Mathlib

/-!
Verification of the retrieval-augmented-generation core of the AI Legal
Assistant backend.  The Python services are shallowly embedded as Lean
functions: pure helpers become pure functions, collaborator calls
(database lookups, vector-index queries, the generation backend) become
explicit oracle parameters, and Python `dict` results become structures
whose optional keys are `Option` fields.  Machine floats carried through
the pipeline (distances, similarities, temperatures) are idealized as
rationals; none of the verified claims depend on float rounding.
-/

namespace LegalAssistant

/-! ### Configuration (backend/app/config.py) -/

namespace settings

def DEFAULT_JURISDICTION : String := "India"

def LLM_PROVIDER : String := "ollama"

/-- Disclaimer text to include in all AI responses (config.py `AI_DISCLAIMER`). -/
def AI_DISCLAIMER : String :=
  "⚠️ **Disclaimer**: I am an AI legal assistant, not a licensed lawyer. The information provided is for general educational purposes only and should not be considered as legal advice. For specific legal matters, please consult a qualified advocate registered with the Bar Council of India."

def CHUNK_SIZE : Nat := 500

def CHUNK_OVERLAP : Nat := 50

def TOP_K_RESULTS : Nat := 5

end settings

/-! ### Shared data shapes

`Metadata` models the metadata dict attached to an index entry; a key that
is absent from the Python dict is `none`.  `RChunk` models one formatted
retrieval result as produced by `VectorStoreService._format_search_results`
(and consumed by the prompt builders), with `source_type` the tag added by
`search_all`. -/

structure Metadata where
  title : Option String := none
  source : Option String := none
  document_name : Option String := none
  start_page : Option Nat := none
  category : Option String := none
deriving DecidableEq

structure RChunk where
  id : String := ""
  content : String := ""
  metadata : Metadata := {}
  distance : Rat := 1
  similarity : Rat := 0
  source_type : Option String := none
deriving DecidableEq

/-- Python truthiness of an optional string (`metadata.get(k)` used as a
condition): present and non-empty. -/
def truthyStr : Option String → Bool
  | none => false
  | some s => !s.isEmpty

/-- Python truthiness of an optional integer: present and non-zero. -/
def truthyNat : Option Nat → Bool
  | none => false
  | some n => n != 0

/-- One message in an LLM conversation (`{"role": ..., "content": ...}`). -/
structure ChatMessage where
  role : String
  content : String
deriving DecidableEq

/-! ### Prompt templates (backend/app/utils/prompts.py) -/

/-- `LEGAL_ASSISTANT_SYSTEM_PROMPT` (an f-string embedding
`settings.DEFAULT_JURISDICTION`). -/
def LEGAL_ASSISTANT_SYSTEM_PROMPT : String :=
  "You are an AI legal assistant specializing in Indian law. Your role is to provide helpful, accurate, and educational information about legal concepts, statutes, and procedures in India.\n\nIMPORTANT RULES:\n1. You are NOT a licensed lawyer or advocate. Never claim to be one.\n2. Always include a disclaimer that this is general information only.\n3. Strongly recommend consulting a qualified advocate registered with the Bar Council of India for specific legal matters.\n4. Base your answers ONLY on the provided context and well-established legal principles.\n5. If you don\x27t have enough information to answer, say so clearly.\n6. Be clear, concise, and use simple language when possible.\n7. When citing laws, mention the specific Act and section if available.\n8. Acknowledge the jurisdiction (India) and mention if laws vary by state.\n9. Never provide advice that could be construed as practicing law.\n10. Focus on education and general information, not case-specific advice.\n\nJurisdiction: "
    ++ settings.DEFAULT_JURISDICTION
    ++ "\n\nKey Indian Laws you may reference:\n- Indian Contract Act, 1872\n- Indian Penal Code (IPC) / Bharatiya Nyaya Sanhita, 2023\n- Code of Civil Procedure, 1908\n- Code of Criminal Procedure, 1973\n- Constitution of India, 1950\n- Consumer Protection Act, 2019\n- Information Technology Act, 2000\n- Companies Act, 2013\n- Indian Evidence Act, 1872\n\nRemember: Your purpose is to educate and inform, not to provide legal counsel."

def DOCUMENT_ANALYSIS_SYSTEM_PROMPT : String :=
  "You are an AI assistant specialized in analyzing legal documents. \n\nYour task is to:\n1. Carefully read the provided document excerpts\n2. Answer the user\x27s question based ONLY on the document content\n3. Cite specific sections or clauses when possible\n4. If the information is not in the document, clearly state that\n5. Highlight any potentially important or risky clauses\n6. Use clear, professional language\n\nRemember: You are analyzing a document, not providing legal advice. Always recommend professional legal review."

def DOCUMENT_SUMMARY_PROMPT : String :=
  "Please provide a concise summary of this document, highlighting:\n1. Type of document (e.g., agreement, notice, contract)\n2. Main parties involved\n3. Key terms and conditions\n4. Important dates or deadlines\n5. Any notable clauses or obligations\n\nKeep the summary clear and factual."

def RISK_ANALYSIS_PROMPT : String :=
  "Please analyze this document for potential risks or concerns, such as:\n1. Unfavorable terms or one-sided clauses\n2. Unclear or ambiguous language\n3. Missing important protections\n4. Unusual or risky obligations\n5. Potential compliance issues\n\nFor each risk identified, explain why it might be concerning."

def KEY_CLAUSES_PROMPT : String :=
  "Please identify and explain the key clauses in this document, including:\n1. Payment terms\n2. Termination conditions\n3. Confidentiality obligations\n4. Liability and indemnification\n5. Dispute resolution\n6. Governing law and jurisdiction\n\nProvide brief explanations of what each clause means."

/-- The bracketed source-reference parts assembled for one chunk inside
`build_context_text` (the `source_parts` list). -/
def sourceParts (m : Metadata) (include_page_numbers : Bool) : List String :=
  (if truthyStr m.title then [m.title.getD ""]
   else if truthyStr m.source then [m.source.getD ""]
   else if truthyStr m.document_name then [m.document_name.getD ""]
   else [])
  ++ (if include_page_numbers && truthyNat m.start_page
      then ["Page " ++ toString (m.start_page.getD 0)] else [])

/-- The formatted context entry for one chunk inside `build_context_text`:
the `[Source: ...]` reference (empty when no parts) followed by a newline
and the chunk content. -/
def contextEntry (include_page_numbers : Bool) (c : RChunk) : String :=
  let parts := sourceParts c.metadata include_page_numbers
  let source_ref :=
    if parts.isEmpty then "" else "[Source: " ++ String.intercalate ", " parts ++ "]"
  source_ref ++ "\n" ++ c.content

/-- `build_context_text(chunks, max_chunks=5, include_page_numbers=False)`:
empty chunk list yields the sentinel string, otherwise the first
`max_chunks` chunks are formatted and joined with blank lines. -/
def build_context_text (chunks : List RChunk) (max_chunks : Nat := 5)
    (include_page_numbers : Bool := false) : String :=
  if chunks.isEmpty then "No relevant information found in the knowledge base."
  else
    String.intercalate "\n\n"
      ((chunks.take max_chunks).map (contextEntry include_page_numbers))

/-- `build_rag_prompt(user_query, context_chunks, conversation_history)`. -/
def build_rag_prompt (user_query : String) (context_chunks : List RChunk)
    (conversation_history : Option (List ChatMessage) := none) : List ChatMessage :=
  let messages : List ChatMessage := [⟨"system", LEGAL_ASSISTANT_SYSTEM_PROMPT⟩]
  -- `if conversation_history:` — None and the empty list both skip the extend
  let messages := messages ++ (conversation_history.getD [])
  let context_text := build_context_text context_chunks
  let user_message :=
    "Context from legal knowledge base:\n---\n" ++ context_text
      ++ "\n---\n\nUser Question: " ++ user_query
      ++ "\n\nPlease provide a helpful answer based on the context above. Include the disclaimer and cite sources where applicable."
  messages ++ [⟨"user", user_message⟩]

/-- `build_document_query_prompt(user_query, document_chunks, document_name)`. -/
def build_document_query_prompt (user_query : String) (document_chunks : List RChunk)
    (document_name : String) : List ChatMessage :=
  let messages : List ChatMessage := [⟨"system", DOCUMENT_ANALYSIS_SYSTEM_PROMPT⟩]
  let context_text := build_context_text document_chunks 5 true
  let user_message :=
    "Document: " ++ document_name ++ "\n\nRelevant excerpts:\n---\n" ++ context_text
      ++ "\n---\n\nQuestion: " ++ user_query
      ++ "\n\nPlease answer based on the document excerpts above. If the information is not present in these excerpts, clearly state that."
  messages ++ [⟨"user", user_message⟩]

/-- `add_disclaimer(response)`: per its own docstring, adds the legal
disclaimer to the *beginning* of a response. -/
def add_disclaimer (response : String) : String :=
  settings.AI_DISCLAIMER ++ "\n\n" ++ response

/-- Python `round` to the nearest integer with ties to even (banker's
rounding), on an idealized rational value. -/
def roundHalfToEven (q : Rat) : Int :=
  if q - ⌊q⌋ = 1 / 2 then (if 2 ∣ ⌊q⌋ then ⌊q⌋ else ⌊q⌋ + 1) else round q

/-- Python `round(x, 1)`. -/
def pyRound1 (q : Rat) : Rat := (roundHalfToEven (q * 10) : Rat) / 10

/-- One formatted source entry produced by `format_sources`; keys that the
Python code only adds conditionally are `Option` fields. -/
structure Source where
  content_preview : String
  similarity : Rat
  title : Option String := none
  source : Option String := none
  document : Option String := none
  page : Option Nat := none
  category : Option String := none
deriving DecidableEq

/-- `format_sources(chunks)`: 200-character content preview plus the
similarity as a percentage rounded to one decimal, with citation fields
copied from metadata when truthy. -/
def format_sources (chunks : List RChunk) : List Source :=
  chunks.map fun c =>
    { content_preview := c.content.take 200 ++ "..."
      similarity := pyRound1 (c.similarity * 100)
      title := if truthyStr c.metadata.title then c.metadata.title else none
      source := if truthyStr c.metadata.source then c.metadata.source else none
      document := if truthyStr c.metadata.document_name then c.metadata.document_name else none
      page := if truthyNat c.metadata.start_page then c.metadata.start_page else none
      category := if truthyStr c.metadata.category then c.metadata.category else none }

/-! ### Vector store cross-collection search
(backend/app/services/vector_store_service.py, `search_all`)

The two sub-searches (`search_legal_knowledge`, `search_user_documents`)
wrap the external ChromaDB client, so `search_all` is embedded as a
function of the two sub-query result lists, exactly as the code combines
them: tag each result with its source collection, concatenate (knowledge
base first), stable-sort ascending by distance (Python `list.sort` is
stable; any stable sort by the same key produces the same list, modelled
with `List.mergeSort`), and truncate to `n_results`. -/

/-- The mutation `r['source_type'] = st` applied to each sub-query result. -/
def tagSource (st : String) (r : RChunk) : RChunk := { r with source_type := some st }

/-- Sort key `lambda x: x.get('distance', 1.0)` as a boolean comparator. -/
def distLE (a b : RChunk) : Bool := a.distance ≤ b.distance

/-- `VectorStoreService.search_all` as a function of the two sub-query
result lists. -/
def search_all (kb_results doc_results : List RChunk)
    (include_knowledge_base include_user_docs : Bool) (n_results : Nat) : List RChunk :=
  let all_results :=
    (if include_knowledge_base then kb_results.map (tagSource "knowledge_base") else [])
      ++ (if include_user_docs then doc_results.map (tagSource "user_document") else [])
  (all_results.mergeSort distLE).take n_results

/-! ### Generation client (backend/app/services/llm_service.py) -/

/-- One turn of Gemini-format history (`{"role": ..., "parts": [...]}`). -/
structure GeminiTurn where
  role : String
  parts : List String
deriving DecidableEq

/-- The role mapping `"user" if msg["role"] == "user" else "model"`. -/
def geminiRole (r : String) : String := if r = "user" then "user" else "model"

/-- The message-conversion loop at the top of `GeminiClient.complete`:
returns the Gemini chat history and the final message text.  System
messages are folded into the final text; a message equal (by value, as in
the Python `msg == messages[-1]` comparison) to the last message whose
role is `"user"` is appended to the final text; everything else becomes a
history turn. -/
def buildGeminiInput (messages : List ChatMessage) : List GeminiTurn × String :=
  messages.foldl
    (fun (acc : List GeminiTurn × String) msg =>
      if msg.role = "system" then
        (acc.1, acc.2 ++ "System Instruction: " ++ msg.content ++ "\n\n")
      else if messages.getLast? = some msg ∧ msg.role = "user" then
        (acc.1, acc.2 ++ msg.content)
      else
        (acc.1 ++ [⟨geminiRole msg.role, [msg.content]⟩], acc.2))
    ([], "")

/-- `GeminiClient.complete`.  The external API call
(`chat.send_message_async`) is the oracle `send`; the `except` block
prints the error and re-raises, so a backend failure is propagated to the
caller unchanged (modelled as `Except.error`). -/
def GeminiClient.complete (send : List GeminiTurn → String → Rat → Except String String)
    (messages : List ChatMessage) (temperature : Rat := 3 / 10) : Except String String :=
  let input := buildGeminiInput messages
  match send input.1 input.2 temperature with
  | .ok text => .ok text
  | .error e => .error e

/-- `GeminiClient.count_tokens`: `len(text) // 4`. -/
def GeminiClient.count_tokens (text : String) : Nat := text.length / 4

/-- The dict returned by `LLMService.generate_response`. -/
structure LLMResponse where
  response : String
  tokens_used : Nat := 0
  model : String := "gemini-pro"
  provider : String := settings.LLM_PROVIDER
  generation_time_ms : Nat := 0
deriving DecidableEq

/-- `LLMService.generate_response`: wraps `complete`; the wall-clock
elapsed time is external and passed as `elapsed_ms`.  An exception from
`complete` is not caught here either. -/
def LLMService.generate_response (send : List GeminiTurn → String → Rat → Except String String)
    (elapsed_ms : Nat) (messages : List ChatMessage) (temperature : Rat := 3 / 10)
    (max_tokens : Nat := 1000) : Except String LLMResponse :=
  match GeminiClient.complete send messages temperature with
  | .ok text =>
      .ok { response := text, tokens_used := 0, model := "gemini-pro"
            provider := settings.LLM_PROVIDER, generation_time_ms := elapsed_ms }
  | .error e => .error e

/-! ### RAG orchestrator (backend/app/services/rag_service.py)

Collaborators are grouped in `RagEnv`: the document lookup
(`DocumentService.get_document_by_id`), the two vector-store sub-searches,
and the generation call (`LLMService.generate_response`, modelled here as
total — the claims about the orchestrator quantify over generation
results).  Each operation additionally returns a `CallCounts` record
counting how many retrieval and generation calls the executed code path
performed, so that short-circuit claims are expressible. -/

/-- The fields of the document ORM row that `RAGService` reads. -/
structure DocumentRec where
  id : String := ""
  original_name : String := ""
  status : String := ""
deriving DecidableEq

structure RagEnv where
  /-- `DocumentService.get_document_by_id(document_id, user_id)`. -/
  get_document_by_id : String → String → Option DocumentRec
  /-- `vector_store.search_legal_knowledge(query, n_results)`. -/
  search_legal_knowledge : String → Nat → List RChunk
  /-- `vector_store.search_user_documents(query, user_id, document_id, n_results)`;
  the third argument is `None` when searching across all of a user's documents. -/
  search_user_documents : String → String → Option String → Nat → List RChunk
  /-- `llm_service.generate_response(messages, temperature, max_tokens)`,
  for executions in which generation succeeds. -/
  generate_response : List ChatMessage → Rat → Nat → LLMResponse

/-- How many times the executed code path called each collaborator. -/
structure CallCounts where
  retrieval_calls : Nat
  llm_calls : Nat
deriving DecidableEq

/-- `app.core.exceptions` errors raised by the RAG service. -/
inductive ServiceError where
  | validationError (message : String)
deriving DecidableEq

/-- The result dict of `query_legal_knowledge` / `query_document`; keys
that only some code paths add are `Option` fields. -/
structure QueryResult where
  answer : String
  sources : List Source
  context_chunks_used : Nat
  tokens_used : Nat
  document_id : Option String := none
  document_name : Option String := none
  model_used : Option String := none
  generation_time_ms : Option Nat := none
deriving DecidableEq

/-- The retrieval step of `query_legal_knowledge`: `search_all` over both
collections when `include_user_docs`, otherwise the knowledge base only. -/
def retrieveForGeneral (env : RagEnv) (query user_id : String) (n_results : Nat)
    (include_user_docs : Bool) : List RChunk :=
  if include_user_docs then
    search_all (env.search_legal_knowledge query n_results)
      (env.search_user_documents query user_id none n_results) true true n_results
  else
    env.search_legal_knowledge query n_results

/-- `RAGService.query_legal_knowledge`: retrieve, build the RAG prompt,
generate, prepend the disclaimer, format sources. -/
def query_legal_knowledge (env : RagEnv) (query user_id : String) (n_results : Nat := 5)
    (conversation_history : Option (List ChatMessage) := none)
    (include_user_docs : Bool := false) : QueryResult × CallCounts :=
  let context_chunks := retrieveForGeneral env query user_id n_results include_user_docs
  let messages := build_rag_prompt query context_chunks conversation_history
  let llm_response := env.generate_response messages (3 / 10) 1000
  ({ answer := add_disclaimer llm_response.response
     sources := format_sources context_chunks
     context_chunks_used := context_chunks.length
     tokens_used := llm_response.tokens_used
     model_used := some llm_response.model
     generation_time_ms := some llm_response.generation_time_ms },
   { retrieval_calls := if include_user_docs then 2 else 1, llm_calls := 1 })

/-- The canned answer text of the `query_document` zero-passage branch
(two adjacent Python string literals, concatenated). -/
def NOT_FOUND_IN_DOCUMENT_ANSWER : String :=
  "I couldn\x27t find relevant information in this document to answer your question. Please try rephrasing your question or ask about a different topic covered in the document."

/-- `RAGService.query_document`: validates that the document exists and is
ready (raising `ValidationError` otherwise, before any retrieval), then
retrieves chunks scoped to the document; with zero retrieved passages it
short-circuits to a canned not-found answer without calling generation. -/
def query_document (env : RagEnv) (query document_id user_id : String)
    (n_results : Nat := 5) : Except ServiceError QueryResult × CallCounts :=
  match env.get_document_by_id document_id user_id with
  | none => (.error (.validationError "Document not found"), ⟨0, 0⟩)
  | some document =>
    if document.status ≠ "ready" then
      (.error (.validationError ("Document is not ready (status: " ++ document.status ++ ")")),
       ⟨0, 0⟩)
    else
      let context_chunks := env.search_user_documents query user_id (some document_id) n_results
      if context_chunks.isEmpty then
        (.ok { answer := add_disclaimer NOT_FOUND_IN_DOCUMENT_ANSWER
               sources := []
               context_chunks_used := 0
               tokens_used := 0 },
         ⟨1, 0⟩)
      else
        let messages := build_document_query_prompt query context_chunks document.original_name
        let llm_response := env.generate_response messages (3 / 10) 1000
        (.ok { answer := add_disclaimer llm_response.response
               sources := format_sources context_chunks
               document_id := some document_id
               document_name := some document.original_name
               context_chunks_used := context_chunks.length
               tokens_used := llm_response.tokens_used
               model_used := some llm_response.model
               generation_time_ms := some llm_response.generation_time_ms },
         ⟨1, 1⟩)

/-- The result dict of `analyze_document`. -/
structure AnalysisResult where
  analysis : String
  analysis_type : String
  document_id : String
  document_name : String
  tokens_used : Nat
  model_used : String
deriving DecidableEq

/-- The analysis-query selection of `analyze_document` (`if custom_query:`
is Python truthiness, so an empty custom query falls through). -/
def resolveAnalysisQuery (analysis_type : String) (custom_query : Option String) :
    Except ServiceError String :=
  if truthyStr custom_query then .ok (custom_query.getD "")
  else if analysis_type = "summary" then .ok DOCUMENT_SUMMARY_PROMPT
  else if analysis_type = "risks" then .ok RISK_ANALYSIS_PROMPT
  else if analysis_type = "key_clauses" then .ok KEY_CLAUSES_PROMPT
  else .error (.validationError ("Unknown analysis type: " ++ analysis_type))

/-- `RAGService.analyze_document`: same validation as `query_document`,
then retrieval with `n_results=10` and generation with `max_tokens=1500`;
unlike `query_document` there is no zero-chunk short-circuit — generation
is always invoked on whatever context was retrieved. -/
def analyze_document (env : RagEnv) (document_id user_id analysis_type : String)
    (custom_query : Option String := none) : Except ServiceError AnalysisResult × CallCounts :=
  match env.get_document_by_id document_id user_id with
  | none => (.error (.validationError "Document not found"), ⟨0, 0⟩)
  | some document =>
    if document.status ≠ "ready" then
      (.error (.validationError ("Document is not ready (status: " ++ document.status ++ ")")),
       ⟨0, 0⟩)
    else
      match resolveAnalysisQuery analysis_type custom_query with
      | .error e => (.error e, ⟨0, 0⟩)
      | .ok query =>
        let context_chunks := env.search_user_documents query user_id (some document_id) 10
        let messages := build_document_query_prompt query context_chunks document.original_name
        let llm_response := env.generate_response messages (3 / 10) 1500
        (.ok { analysis := add_disclaimer llm_response.response
               analysis_type := analysis_type
               document_id := document_id
               document_name := document.original_name
               tokens_used := llm_response.tokens_used
               model_used := llm_response.model },
         ⟨1, 1⟩)

/-! ### Python string primitives

The chunker and the embedder test and strip Python whitespace.  Python
text is modelled as a list of characters (`PyStr`) where character-level
reasoning is needed; `String`-level helpers are derived from the same
character predicate. -/

/-- The ASCII whitespace characters recognised by Python `str.strip()` /
`str.isspace()` on the inputs this system handles. -/
def isPySpace (c : Char) : Bool :=
  c = ' ' || c = '\t' || c = '\n' || c = '\r' || c = '\x0b' || c = '\x0c'

abbrev PyStr := List Char

/-- Python `str.strip()`: drop whitespace from both ends. -/
def pyStrip (s : PyStr) : PyStr :=
  ((s.dropWhile isPySpace).reverse.dropWhile isPySpace).reverse

/-- Python truthiness test `not text or not text.strip()` — true exactly
for empty or whitespace-only strings. -/
def pyIsBlank (s : String) : Bool := s.data.all isPySpace

/-! ### Embedding service (backend/app/services/embedding_service.py)

The sentence-transformer model is external; `encode` is its oracle
(batched) and `encodeOne` the single-text variant.  Vectors are idealized
as rational lists of length `dimension`. -/

/-- `EmbeddingService.embed_text`: blank input returns the zero vector of
the model dimension without touching the model. -/
def embed_text (encodeOne : String → List Rat) (dimension : Nat) (text : String) :
    List Rat :=
  if pyIsBlank text then List.replicate dimension 0 else encodeOne text

/-- The reconstruction loop at the end of `EmbeddingService.embed_texts`:
walk the original texts, emitting a zero vector for each blank text and
consuming the next model embedding otherwise.  Exhausting the model
embeddings early would be a Python `IndexError`, modelled as `none`. -/
def reconstructEmbeddings (dimension : Nat) :
    List String → List (List Rat) → Option (List (List Rat))
  | [], _ => some []
  | t :: ts, embs =>
    if pyIsBlank t then
      (reconstructEmbeddings dimension ts embs).map (List.replicate dimension 0 :: ·)
    else
      match embs with
      | [] => none
      | e :: es => (reconstructEmbeddings dimension ts es).map (e :: ·)

/-- `EmbeddingService.embed_texts`: the model is invoked only on the
non-blank subset, and zero vectors are reinserted at the original
positions of the blank texts. -/
def embed_texts (encode : List String → List (List Rat)) (dimension : Nat)
    (texts : List String) : Option (List (List Rat)) :=
  if texts.isEmpty then some []
  else
    let non_empty_texts := texts.filter (fun t => !pyIsBlank t)
    let embeddings_list := if non_empty_texts.isEmpty then [] else encode non_empty_texts
    reconstructEmbeddings dimension texts embeddings_list

/-! ### Chunker (backend/app/utils/file_processor.py, `chunk_text`) -/

/-- Sentence-ending punctuation of the regex `(?<=[.!?])\s+`. -/
def isSentEnd (c : Char) : Bool := c = '.' || c = '!' || c = '?'

/-- Python `text.split('\n')` on character lists. -/
def splitNewlines : PyStr → List PyStr
  | [] => [[]]
  | c :: rest =>
    if c = '\n' then [] :: splitNewlines rest
    else
      match splitNewlines rest with
      | [] => [[c]]
      | p :: ps => (c :: p) :: ps

/-- `re.split(r'(?<=[.!?])\s+', para)`: scanning left to right, a maximal
whitespace run immediately preceded by sentence-ending punctuation is a
delimiter.  `prev` is the character preceding the scan position (`none`
at the start of the string and right after a delimiter, where no new
delimiter can begin anyway because the following character is
non-whitespace). -/
def splitSentencesAux (prev : Option Char) (l : PyStr) : List PyStr :=
  match l with
  | [] => [[]]
  | c :: rest =>
    if isPySpace c && (match prev with | some p => isSentEnd p | none => false) then
      [] :: splitSentencesAux none (rest.dropWhile isPySpace)
    else
      match splitSentencesAux (some c) rest with
      | [] => [[c]]
      | p :: ps => (c :: p) :: ps
termination_by l.length
decreasing_by
  · simp only [List.length_cons]
    exact Nat.lt_succ_of_le (List.dropWhile_sublist isPySpace).length_le
  · simp

def splitSentences (para : PyStr) : List PyStr := splitSentencesAux none para

/-- The sentence-splitting preamble of `chunk_text`: paragraphs, then
sentence-ending punctuation, stripping and dropping empties at each
level. -/
def sentencesOfText (text : PyStr) : List PyStr :=
  (((splitNewlines text).map pyStrip).filter (fun p => !p.isEmpty)).flatMap
    (fun para => ((splitSentences para).map pyStrip).filter (fun s => !s.isEmpty))

/-- Sum of the sentence lengths of an accumulating chunk — the quantity
the Python loop tracks as `current_size`. -/
def sumLen (l : List PyStr) : Nat := (l.map List.length).sum

/-- The overlap-selection loop: walk the just-flushed chunk from the end,
keeping trailing sentences while their combined length stays within
`chunk_overlap` (`acc` is the `overlap_sentences` accumulator, already in
document order; `size` its combined length). -/
def overlapAux (ov : Nat) : List PyStr → Nat → List PyStr → List PyStr
  | [], _, acc => acc
  | s :: rest, size, acc =>
    if size + s.length ≤ ov then overlapAux ov rest (size + s.length) (s :: acc)
    else acc

/-- Trailing sentences of `cur` whose combined length is at most `ov`. -/
def overlapOf (ov : Nat) (cur : List PyStr) : List PyStr := overlapAux ov cur.reverse 0 []

/-- The sentence-accumulation loop of `chunk_text`, returning the emitted
chunks as sentence groups: a chunk is flushed when the next sentence would
push the accumulated size past `chunk_size` (and the accumulator is
non-empty), the new accumulator is seeded with the overlap window, and the
final accumulation is flushed at the end. -/
def chunkLoop (size ov : Nat) : List PyStr → List PyStr → List (List PyStr)
  | [], cur => if cur.isEmpty then [] else [cur]
  | s :: rest, cur =>
    if sumLen cur + s.length > size && !cur.isEmpty then
      cur :: chunkLoop size ov rest (overlapOf ov cur ++ [s])
    else
      chunkLoop size ov rest (cur ++ [s])

/-- Python `' '.join(current_chunk)`. -/
def joinSp : List PyStr → PyStr
  | [] => []
  | [s] => s
  | s :: rest => s ++ ' ' :: joinSp rest

/-- One chunk dict produced by `chunk_text`. -/
structure Chunk where
  chunk_index : Nat
  content : PyStr
  char_count : Nat
  start_char : Nat
deriving DecidableEq

/-- Builds the chunk dicts from the flushed sentence groups.  A chunk
flushed mid-loop gets `start_char = sum` of all previously emitted chunk
lengths; the final chunk's `start_char` is computed over
`chunks[:-1]` and therefore omits the most recently emitted chunk
(`sumButLast`), exactly as in the source. -/
def buildChunksAux (idx sumAll sumButLast : Nat) : List (List PyStr) → List Chunk
  | [] => []
  | cs :: rest =>
    let content := joinSp cs
    { chunk_index := idx
      content := content
      char_count := content.length
      start_char := if rest.isEmpty then sumButLast else sumAll }
      :: buildChunksAux (idx + 1) (sumAll + content.length) sumAll rest

/-- `chunk_text(text, chunk_size=500, chunk_overlap=50)`. -/
def chunk_text (text : PyStr) (chunk_size : Nat := 500) (chunk_overlap : Nat := 50) :
    List Chunk :=
  if (pyStrip text).isEmpty then []
  else
    buildChunksAux 0 0 0
      (chunkLoop chunk_size chunk_overlap (sentencesOfText (pyStrip text)) [])

/-! ## Theorems -/

/-! ### C1 — disclaimer placement in `query_legal_knowledge` -/

/-- A concrete environment whose generation backend returns a fixed
answer, used to evaluate `query_legal_knowledge` on one explicit input. -/
def envFixedAnswer : RagEnv where
  get_document_by_id := fun _ _ => none
  search_legal_knowledge := fun _ _ => []
  search_user_documents := fun _ _ _ _ => []
  generate_response := fun _ _ _ => { response := "The answer is 42." }

/-- C1 (counterexample): with a backend that outputs "The answer is 42.",
the answer returned by `query_legal_knowledge` is the disclaimer followed
by the model output — the configured disclaimer text is *not* a suffix of
the answer, and the answer is not the model output with the disclaimer
appended, refuting the claim that the disclaimer is appended after the
model output. -/
theorem query_legal_knowledge_disclaimer_not_appended :
    (query_legal_knowledge envFixedAnswer "What is a contract?" "u1" 5 none false).1.answer
      = settings.AI_DISCLAIMER ++ "\n\n" ++ "The answer is 42."
    ∧ ¬ settings.AI_DISCLAIMER.data
        <:+ (query_legal_knowledge envFixedAnswer "What is a contract?" "u1" 5 none false).1.answer.data
    ∧ (query_legal_knowledge envFixedAnswer "What is a contract?" "u1" 5 none false).1.answer
        ≠ "The answer is 42." ++ "\n\n" ++ settings.AI_DISCLAIMER :=
  ⟨rfl, by decide, by decide⟩

/-- C1 (amended): for every generation result, the answer returned by
`query_legal_knowledge` is the configured disclaimer text *prepended*
before the model output (separated by a blank line); in particular the
disclaimer is a prefix of the answer. -/
theorem query_legal_knowledge_prepends_disclaimer (env : RagEnv)
    (query user_id : String) (n_results : Nat) (hist : Option (List ChatMessage))
    (inc : Bool) :
    (query_legal_knowledge env query user_id n_results hist inc).1.answer
      = settings.AI_DISCLAIMER ++ "\n\n"
          ++ (env.generate_response
                (build_rag_prompt query (retrieveForGeneral env query user_id n_results inc) hist)
                (3 / 10) 1000).response
    ∧ settings.AI_DISCLAIMER.data
        <+: (query_legal_knowledge env query user_id n_results hist inc).1.answer.data := by
  refine ⟨rfl, ?_⟩
  show settings.AI_DISCLAIMER.data
    <+: (settings.AI_DISCLAIMER ++ "\n\n" ++ _).data
  rw [String.data_append, String.data_append, List.append_assoc]
  exact ⟨_, rfl⟩

/-! ### C8 — context block construction -/

/-- C8: `build_context_text` returns the explicit sentinel string on the
empty passage list, and at most the first 5 passages contribute — the
context of any passage list equals the context of its first 5 passages
(passages beyond the cap are dropped).  Determinism in the inputs holds by
construction, as the embedding is a pure function. -/
theorem build_context_text_cap_and_sentinel :
    (∀ include_page_numbers : Bool,
        build_context_text [] 5 include_page_numbers
          = "No relevant information found in the knowledge base.")
    ∧ (∀ (chunks : List RChunk) (include_page_numbers : Bool),
        build_context_text chunks 5 include_page_numbers
          = build_context_text (chunks.take 5) 5 include_page_numbers) := by
  refine ⟨fun _ => rfl, fun chunks ipn => ?_⟩
  match chunks with
  | [] => rfl
  | c :: t =>
    simp [build_context_text, List.take_take]

/-! ### C2 — zero-passage short circuit in `query_document` -/

/-- C2: when the target document exists and is ready but retrieval
returns zero passages, `query_document` returns the canned not-found
answer with empty sources and zero tokens, and the generation backend is
never invoked (`llm_calls = 0`). -/
theorem query_document_zero_passages_short_circuit (env : RagEnv)
    (query document_id user_id : String) (n_results : Nat) (doc : DocumentRec)
    (hdoc : env.get_document_by_id document_id user_id = some doc)
    (hready : doc.status = "ready")
    (hempty : env.search_user_documents query user_id (some document_id) n_results = []) :
    query_document env query document_id user_id n_results
      = (.ok { answer := add_disclaimer NOT_FOUND_IN_DOCUMENT_ANSWER
               sources := []
               context_chunks_used := 0
               tokens_used := 0 },
         ⟨1, 0⟩) := by
  simp [query_document, hdoc, hready, hempty]

/-- Environment for the C2 witness: one ready document, a retriever that
finds nothing in it, and a generation backend whose answer would be
observable if it were (wrongly) invoked. -/
def envReadyNoPassages : RagEnv where
  get_document_by_id := fun did uid =>
    if did = "d1" ∧ uid = "u1" then some ⟨"d1", "contract.pdf", "ready"⟩ else none
  search_legal_knowledge := fun _ _ => []
  search_user_documents := fun _ _ _ _ => []
  generate_response := fun _ _ _ => { response := "generation happened" }

/-- C2 witness: the short-circuit theorem evaluated on a concrete ready
document with zero retrieved passages. -/
theorem query_document_zero_passages_short_circuit_witness :
    query_document envReadyNoPassages "What is the rent?" "d1" "u1" 5
      = (.ok { answer := add_disclaimer NOT_FOUND_IN_DOCUMENT_ANSWER
               sources := []
               context_chunks_used := 0
               tokens_used := 0 },
         ⟨1, 0⟩) :=
  query_document_zero_passages_short_circuit envReadyNoPassages "What is the rent?" "d1" "u1" 5
    ⟨"d1", "contract.pdf", "ready"⟩ (by decide) rfl rfl

/-! ### C9 — validation errors in `query_document` -/

/-- C9: `query_document` raises `ValidationError` when the target
document is absent, and when it exists with a processing status other
than "ready"; in both cases no retrieval and no generation call is made
(`CallCounts` are zero). -/
theorem query_document_validation_errors (env : RagEnv)
    (query document_id user_id : String) (n_results : Nat) :
    (env.get_document_by_id document_id user_id = none →
      query_document env query document_id user_id n_results
        = (.error (.validationError "Document not found"), ⟨0, 0⟩))
    ∧ (∀ doc : DocumentRec, env.get_document_by_id document_id user_id = some doc →
        doc.status ≠ "ready" →
        query_document env query document_id user_id n_results
          = (.error (.validationError
                ("Document is not ready (status: " ++ doc.status ++ ")")), ⟨0, 0⟩)) := by
  constructor
  · intro h
    simp [query_document, h]
  · intro doc h hs
    simp [query_document, h, hs]

/-- Environment for the C9 witness: document "d2" exists with status
"processing"; all other ids are absent. -/
def envNotReady : RagEnv where
  get_document_by_id := fun did _ =>
    if did = "d2" then some ⟨"d2", "notice.pdf", "processing"⟩ else none
  search_legal_knowledge := fun _ _ => []
  search_user_documents := fun _ _ _ _ => []
  generate_response := fun _ _ _ => { response := "generation happened" }

/-- C9 witness: the validation theorem evaluated on a concrete absent
document and on a concrete not-ready document. -/
theorem query_document_validation_errors_witness :
    query_document envNotReady "x" "missing" "u1" 5
      = (.error (.validationError "Document not found"), ⟨0, 0⟩)
    ∧ query_document envNotReady "x" "d2" "u1" 5
      = (.error (.validationError "Document is not ready (status: processing)"), ⟨0, 0⟩) :=
  ⟨(query_document_validation_errors envNotReady "x" "missing" "u1" 5).1 (by decide),
   (query_document_validation_errors envNotReady "x" "d2" "u1" 5).2
     ⟨"d2", "notice.pdf", "processing"⟩ (by decide) (by decide)⟩

/-! ### C10 — `analyze_document` does not short-circuit on zero chunks -/

/-- C10: unlike `query_document`, `analyze_document` on a ready document
with zero retrieved chunks still builds the document-query prompt (whose
context block is the no-information sentinel) and invokes the generation
backend exactly once, returning the disclaimer-prefixed model output as
the analysis. -/
theorem analyze_document_no_zero_chunk_short_circuit (env : RagEnv)
    (document_id user_id : String) (doc : DocumentRec)
    (hdoc : env.get_document_by_id document_id user_id = some doc)
    (hready : doc.status = "ready")
    (hempty : env.search_user_documents DOCUMENT_SUMMARY_PROMPT user_id (some document_id) 10
        = []) :
    (analyze_document env document_id user_id "summary" none
      = (.ok { analysis := add_disclaimer
                 (env.generate_response
                   (build_document_query_prompt DOCUMENT_SUMMARY_PROMPT [] doc.original_name)
                   (3 / 10) 1500).response
               analysis_type := "summary"
               document_id := document_id
               document_name := doc.original_name
               tokens_used := (env.generate_response
                   (build_document_query_prompt DOCUMENT_SUMMARY_PROMPT [] doc.original_name)
                   (3 / 10) 1500).tokens_used
               model_used := (env.generate_response
                   (build_document_query_prompt DOCUMENT_SUMMARY_PROMPT [] doc.original_name)
                   (3 / 10) 1500).model },
         ⟨1, 1⟩))
    ∧ build_context_text [] 5 true
        = "No relevant information found in the knowledge base." := by
  refine ⟨?_, rfl⟩
  simp [analyze_document, hdoc, hready, hempty, resolveAnalysisQuery, truthyStr]

/-- Environment for the C10 witness: a ready document with no matching
chunks and a backend returning a fixed analysis text. -/
def envReadyNoChunksAnalysis : RagEnv where
  get_document_by_id := fun did uid =>
    if did = "d3" ∧ uid = "u1" then some ⟨"d3", "lease.pdf", "ready"⟩ else none
  search_legal_knowledge := fun _ _ => []
  search_user_documents := fun _ _ _ _ => []
  generate_response := fun _ _ _ => { response := "This appears to be a lease agreement." }

/-- C10 witness: the no-short-circuit theorem evaluated on a concrete
ready document with zero chunks; the analysis is the disclaimer-prefixed
model output and the generation call count is 1. -/
theorem analyze_document_no_zero_chunk_short_circuit_witness :
    (analyze_document envReadyNoChunksAnalysis "d3" "u1" "summary" none
      = (.ok { analysis := add_disclaimer "This appears to be a lease agreement."
               analysis_type := "summary"
               document_id := "d3"
               document_name := "lease.pdf"
               tokens_used := 0
               model_used := "gemini-pro" },
         ⟨1, 1⟩))
    ∧ build_context_text [] 5 true
        = "No relevant information found in the knowledge base." :=
  analyze_document_no_zero_chunk_short_circuit envReadyNoChunksAnalysis "d3" "u1"
    ⟨"d3", "lease.pdf", "ready"⟩ (by decide) rfl rfl

/-! ### C5 — batch embedding reinserts zero vectors positionally -/

/-- Correctness of the reconstruction loop: if the model returned exactly
one embedding per non-blank text, reconstruction succeeds, preserves
length, puts the zero vector at every blank position, and threads the
model embeddings through the non-blank positions in order. -/
theorem reconstructEmbeddings_ok (dimension : Nat) :
    ∀ (ts : List String) (embs : List (List Rat)),
      embs.length = (ts.filter (fun t => !pyIsBlank t)).length →
      ∃ r, reconstructEmbeddings dimension ts embs = some r
        ∧ r.length = ts.length
        ∧ (∀ i, i < ts.length → pyIsBlank (ts.getD i "") →
              r[i]? = some (List.replicate dimension 0))
        ∧ (ts.zip r).filterMap (fun p => if pyIsBlank p.1 then none else some p.2)
            = embs := by
  intro ts
  induction ts with
  | nil =>
    intro embs h
    simp only [List.filter_nil, List.length_nil, List.length_eq_zero] at h
    subst h
    exact ⟨[], rfl, rfl, fun i hi => absurd hi (by simp), rfl⟩
  | cons t ts ih =>
    intro embs h
    by_cases hb : pyIsBlank t
    · have h' : embs.length = (ts.filter (fun t => !pyIsBlank t)).length := by
        simpa [List.filter_cons, hb] using h
      obtain ⟨r, hr, hlen, hidx, hfm⟩ := ih embs h'
      refine ⟨List.replicate dimension 0 :: r, ?_, by simp [hlen], ?_, ?_⟩
      · simp [reconstructEmbeddings, hb, hr]
      · intro i hi hblank
        match i with
        | 0 => simp
        | i + 1 =>
          simpa using hidx i (by simpa using hi) (by simpa using hblank)
      · simpa [List.zip_cons_cons, List.filterMap_cons, hb] using hfm
    · have hcons : (t :: ts).filter (fun t => !pyIsBlank t)
          = t :: ts.filter (fun t => !pyIsBlank t) := by
        simp [List.filter_cons, hb]
      rw [hcons] at h
      match embs, h with
      | e :: es, h =>
        have h' : es.length = (ts.filter (fun t => !pyIsBlank t)).length := by
          simpa using h
        obtain ⟨r, hr, hlen, hidx, hfm⟩ := ih es h'
        refine ⟨e :: r, ?_, by simp [hlen], ?_, ?_⟩
        · simp [reconstructEmbeddings, hb, hr]
        · intro i hi hblank
          match i with
          | 0 => exact absurd hblank (by simpa using hb)
          | i + 1 =>
            simpa using hidx i (by simpa using hi) (by simpa using hblank)
        · simpa [List.zip_cons_cons, List.filterMap_cons, hb] using hfm

/-- C5: assuming only the external model's contract — one embedding per
input text — `embed_texts` succeeds and returns a list of the same length
as the input, in which every blank text maps to the zero vector of the
model dimension at its original position, and the non-blank texts receive
the model's embeddings of the non-blank subset in input order. -/
theorem embed_texts_spec (encode : List String → List (List Rat)) (dimension : Nat)
    (texts : List String)
    (hlen : ∀ l, (encode l).length = l.length) :
    ∃ r, embed_texts encode dimension texts = some r
      ∧ r.length = texts.length
      ∧ (∀ i, i < texts.length → pyIsBlank (texts.getD i "") →
            r[i]? = some (List.replicate dimension 0))
      ∧ (texts.zip r).filterMap (fun p => if pyIsBlank p.1 then none else some p.2)
          = encode (texts.filter (fun t => !pyIsBlank t)) := by
  have hempty : encode [] = [] := by
    have := hlen []
    simpa [List.length_eq_zero] using this
  match texts with
  | [] =>
    exact ⟨[], rfl, rfl, fun i hi => absurd hi (by simp), by simp [hempty]⟩
  | t :: ts =>
    have hmain := reconstructEmbeddings_ok dimension (t :: ts)
      (encode ((t :: ts).filter (fun t => !pyIsBlank t))) (hlen _)
    obtain ⟨r, hr, hlen', hidx, hfm⟩ := hmain
    refine ⟨r, ?_, hlen', hidx, hfm⟩
    unfold embed_texts
    simp only [List.isEmpty_cons, if_false, Bool.false_eq_true]
    by_cases hne : ((t :: ts).filter (fun t => !pyIsBlank t)).isEmpty
    · rw [if_pos hne]
      rw [List.isEmpty_iff] at hne
      rw [hne, hempty] at hr
      exact hr
    · rw [if_neg hne]
      exact hr

/-- A concrete length-preserving stand-in for the sentence-transformer
model: each text embeds to the one-element vector of its length. -/
def encodeByLength : List String → List (List Rat) :=
  fun l => l.map (fun s => [(s.length : Rat)])

/-- C5 witness: the batch-embedding theorem applied to a concrete model
and a concrete batch containing empty and whitespace-only texts. -/
theorem embed_texts_spec_witness :
    (∀ l, (encodeByLength l).length = l.length)
    ∧ ∃ r, embed_texts encodeByLength 3 ["hello", "", "   ", "world"] = some r
        ∧ r.length = ["hello", "", "   ", "world"].length
        ∧ (∀ i, i < (["hello", "", "   ", "world"] : List String).length →
              pyIsBlank ((["hello", "", "   ", "world"] : List String).getD i "") →
              r[i]? = some (List.replicate 3 0))
        ∧ ((["hello", "", "   ", "world"] : List String).zip r).filterMap
              (fun p => if pyIsBlank p.1 then none else some p.2)
            = encodeByLength ((["hello", "", "   ", "world"] : List String).filter
                (fun t => !pyIsBlank t)) :=
  ⟨fun l => by simp [encodeByLength],
   embed_texts_spec encodeByLength 3 ["hello", "", "   ", "world"]
     (fun l => by simp [encodeByLength])⟩

/-! ### C4 — cross-collection fusion in `search_all` -/

open scoped List

/-- The comparator `distLE` is transitive. -/
theorem distLE_trans : ∀ a b c : RChunk, distLE a b → distLE b c → distLE a c := by
  intro a b c hab hbc
  simp only [distLE, decide_eq_true_eq] at *
  exact le_trans hab hbc

/-- The comparator `distLE` is total. -/
theorem distLE_total : ∀ a b : RChunk, distLE a b || distLE b a := by
  intro a b
  simp only [distLE, Bool.or_eq_true, decide_eq_true_eq]
  exact le_total a.distance b.distance

/-- In a duplicate-free list, a two-element sublist survives truncation to
the first `k` elements as soon as its later element does. -/
theorem pair_sublist_take {α : Type u} :
    ∀ (l : List α) (k : Nat) (x y : α),
      l.Nodup → [x, y] <+ l → y ∈ l.take k → [x, y] <+ l.take k
  | [], _, _, _, _, _, hy => absurd hy (by simp)
  | _ :: _, 0, _, _, _, _, hy => absurd hy (by simp)
  | a :: t, k + 1, x, y, hn, hs, hy => by
    rw [List.take_succ_cons] at hy ⊢
    cases hs with
    | cons _ hs' =>
      have hyt : y ∈ t := hs'.subset (by simp)
      have hya : y ≠ a := fun h => (List.nodup_cons.mp hn).1 (h ▸ hyt)
      have hy' : y ∈ t.take k := by
        rcases List.mem_cons.mp hy with h | h
        · exact absurd h hya
        · exact h
      exact (pair_sublist_take t k x y (List.nodup_cons.mp hn).2 hs' hy').cons a
    | cons₂ _ hs' =>
      have hyt : y ∈ t := hs'.subset (by simp)
      have hya : y ≠ a := fun h => (List.nodup_cons.mp hn).1 (h ▸ hyt)
      have hy' : y ∈ t.take k := by
        rcases List.mem_cons.mp hy with h | h
        · exact absurd h hya
        · exact h
      exact List.Sublist.cons₂ a (List.singleton_sublist.mpr hy')

/-- C4: with both collections enabled, `search_all` of the two sub-query
result lists (i) returns only results tagged with their source
collection, taken from the concatenation of knowledge-base results before
user-document results; (ii) returns exactly `min k (total)` results, so
at most `k`; (iii) returns them sorted ascending by distance; (iv)
returns a prefix of a permutation of the tagged concatenation; and (v) is
stable — among duplicate-free inputs, two results with equal distance
that appear in concatenation order (knowledge base first) appear in the
same order in the output whenever the later one survives truncation. -/
theorem search_all_spec (kb_results doc_results : List RChunk) (n_results : Nat) :
    (∀ r ∈ search_all kb_results doc_results true true n_results,
        r ∈ kb_results.map (tagSource "knowledge_base")
              ++ doc_results.map (tagSource "user_document"))
    ∧ (search_all kb_results doc_results true true n_results).length
        = min n_results (kb_results.length + doc_results.length)
    ∧ (search_all kb_results doc_results true true n_results).Pairwise
        (fun a b => a.distance ≤ b.distance)
    ∧ (∃ rest, (search_all kb_results doc_results true true n_results ++ rest).Perm
          (kb_results.map (tagSource "knowledge_base")
            ++ doc_results.map (tagSource "user_document")))
    ∧ ((kb_results.map (tagSource "knowledge_base")
          ++ doc_results.map (tagSource "user_document")).Nodup →
        ∀ x y : RChunk,
          [x, y] <+ kb_results.map (tagSource "knowledge_base")
                      ++ doc_results.map (tagSource "user_document") →
          x.distance = y.distance →
          y ∈ search_all kb_results doc_results true true n_results →
          [x, y] <+ search_all kb_results doc_results true true n_results) := by
  have hdef : search_all kb_results doc_results true true n_results
      = ((kb_results.map (tagSource "knowledge_base")
            ++ doc_results.map (tagSource "user_document")).mergeSort distLE).take
          n_results := rfl
  refine ⟨?_, ?_, ?_, ?_, ?_⟩
  · intro r hr
    rw [hdef] at hr
    exact List.mem_mergeSort.mp (List.mem_of_mem_take hr)
  · rw [hdef]
    simp [List.length_take]
  · rw [hdef]
    refine List.Pairwise.sublist (List.take_sublist _ _) ?_
    refine (List.sorted_mergeSort distLE_trans distLE_total _).imp ?_
    intro a b h
    simpa [distLE, decide_eq_true_eq] using h
  · refine ⟨((kb_results.map (tagSource "knowledge_base")
        ++ doc_results.map (tagSource "user_document")).mergeSort distLE).drop n_results, ?_⟩
    rw [hdef, List.take_append_drop]
    exact List.mergeSort_perm _ distLE
  · intro hnd x y hxy heq hy
    have hle : distLE x y := by
      simp [distLE, heq]
    have hpair := List.pair_sublist_mergeSort distLE_trans distLE_total hle hxy
    have hnodup : ((kb_results.map (tagSource "knowledge_base")
        ++ doc_results.map (tagSource "user_document")).mergeSort distLE).Nodup :=
      (List.mergeSort_perm _ distLE).symm.nodup hnd
    rw [hdef] at hy ⊢
    exact pair_sublist_take _ n_results x y hnodup hpair hy

/-- C4 witness inputs: two knowledge-base results and one user-document
result whose distance ties with a knowledge-base result. -/
def kbResultsW : List RChunk := [{ id := "k1", distance := 5 }, { id := "k2", distance := 3 }]

def docResultsW : List RChunk := [{ id := "u1", distance := 5 }]

unseal List.merge List.mergeSort in
/-- C4 witness: on the concrete tied inputs, the stability clause of
`search_all_spec` puts the knowledge-base result "k1" before the
equal-distance user-document result "u1" in the fused output, and the
length clause gives exactly three results. -/
theorem search_all_spec_witness :
    [{ id := "k1", distance := 5, source_type := some "knowledge_base" },
     { id := "u1", distance := 5, source_type := some "user_document" }]
      <+ search_all kbResultsW docResultsW true true 3
    ∧ (search_all kbResultsW docResultsW true true 3).length = min 3 (2 + 1) :=
  ⟨(search_all_spec kbResultsW docResultsW 3).2.2.2.2 (by decide)
      { id := "k1", distance := 5, source_type := some "knowledge_base" }
      { id := "u1", distance := 5, source_type := some "user_document" }
      (by decide) (by decide) (by decide),
   (search_all_spec kbResultsW docResultsW 3).2.1⟩

/-! ### C3 — backend failures propagate out of the generation client -/

/-- A backend whose API call always raises. -/
def failingSend : List GeminiTurn → String → Rat → Except String String :=
  fun _ _ _ => .error "Gemini API error: quota exceeded"

/-- C3 (counterexample): with a backend that raises, `GeminiClient.complete`
re-raises — its result is the propagated exception, not a marked error
string (`ok` with any string is impossible), and
`LLMService.generate_response` propagates it too.  This refutes the claim
that the generate operation returns a clearly marked error string rather
than propagating the exception. -/
theorem gemini_complete_propagates_counterexample :
    GeminiClient.complete failingSend [⟨"user", "hi"⟩] (3 / 10)
      = .error "Gemini API error: quota exceeded"
    ∧ (∀ s : String,
        GeminiClient.complete failingSend [⟨"user", "hi"⟩] (3 / 10) ≠ .ok s)
    ∧ LLMService.generate_response failingSend 0 [⟨"user", "hi"⟩] (3 / 10) 1000
        = .error "Gemini API error: quota exceeded" :=
  ⟨rfl, fun _ h => Except.noConfusion h, rfl⟩

/-- C3 (amended): on every input on which the generation backend fails,
`GeminiClient.complete` logs and re-raises, so the exception propagates
unchanged to its caller, and `LLMService.generate_response` (which does
not catch either) propagates it further. -/
theorem gemini_complete_propagates_failure
    (send : List GeminiTurn → String → Rat → Except String String)
    (messages : List ChatMessage) (temperature : Rat) (elapsed_ms max_tokens : Nat)
    (e : String)
    (h : send (buildGeminiInput messages).1 (buildGeminiInput messages).2 temperature
        = .error e) :
    GeminiClient.complete send messages temperature = .error e
    ∧ LLMService.generate_response send elapsed_ms messages temperature max_tokens
        = .error e := by
  refine ⟨?_, ?_⟩ <;>
    simp [GeminiClient.complete, LLMService.generate_response, h]

/-- C3 witness: the propagation theorem applied to the concrete failing
backend. -/
theorem gemini_complete_propagates_failure_witness :
    GeminiClient.complete failingSend [⟨"user", "hi"⟩] (3 / 10)
      = .error "Gemini API error: quota exceeded"
    ∧ LLMService.generate_response failingSend 7 [⟨"user", "hi"⟩] (3 / 10) 1000
        = .error "Gemini API error: quota exceeded" :=
  gemini_complete_propagates_failure failingSend [⟨"user", "hi"⟩] (3 / 10) 7 1000
    "Gemini API error: quota exceeded" rfl

/-! ### Chunker lemmas (toward C6 and C7) -/

theorem sumLen_cons (s : PyStr) (l : List PyStr) : sumLen (s :: l) = s.length + sumLen l := by
  simp [sumLen]

theorem sumLen_append (l₁ l₂ : List PyStr) : sumLen (l₁ ++ l₂) = sumLen l₁ + sumLen l₂ := by
  simp [sumLen]

/-- Length of the space-joined chunk content: the sentence lengths plus
one joining space between consecutive sentences. -/
theorem joinSp_length : ∀ cs : List PyStr, cs ≠ [] →
    (joinSp cs).length = sumLen cs + (cs.length - 1)
  | [], h => absurd rfl h
  | [s], _ => by simp [joinSp, sumLen]
  | s :: c :: t, _ => by
    have ih := joinSp_length (c :: t) (by simp)
    have hj : joinSp (s :: c :: t) = s ++ ' ' :: joinSp (c :: t) := rfl
    rw [hj]
    simp only [List.length_append, List.length_cons, sumLen_cons] at *
    omega

/-- The overlap-selection loop never accumulates more than `ov`
characters of sentences. -/
theorem overlapAux_le (ov : Nat) : ∀ (l : List PyStr) (size : Nat) (acc : List PyStr),
    sumLen acc = size → size ≤ ov → sumLen (overlapAux ov l size acc) ≤ ov
  | [], _, acc, hacc, hle => by
    rw [overlapAux, hacc]
    exact hle
  | s :: rest, size, acc, hacc, hle => by
    rw [overlapAux]
    by_cases h : size + s.length ≤ ov
    · rw [if_pos h]
      exact overlapAux_le ov rest (size + s.length) (s :: acc)
        (by rw [sumLen_cons, hacc]; omega) h
    · rw [if_neg h, hacc]
      exact hle

theorem overlapOf_le (ov : Nat) (cur : List PyStr) : sumLen (overlapOf ov cur) ≤ ov :=
  overlapAux_le ov cur.reverse 0 [] rfl (Nat.zero_le ov)

/-- The size discipline a flushed chunk satisfies: either it contains an
oversized sentence, or its sentences total at most
`chunk_size + chunk_overlap` characters. -/
def chunkOK (size ov : Nat) (cs : List PyStr) : Prop :=
  (∃ s ∈ cs, s.length > size) ∨ sumLen cs ≤ size + ov

/-- Every chunk flushed by the accumulation loop satisfies the size
discipline, provided the running accumulator does. -/
theorem chunkLoop_all_OK (size ov : Nat) : ∀ (sents : List PyStr) (cur : List PyStr),
    chunkOK size ov cur → ∀ cs ∈ chunkLoop size ov sents cur, chunkOK size ov cs
  | [], cur, hcur, cs, hcs => by
    rw [chunkLoop] at hcs
    by_cases h : cur.isEmpty
    · rw [if_pos h] at hcs
      exact absurd hcs (by simp)
    · rw [if_neg h] at hcs
      rw [List.mem_singleton.mp hcs]
      exact hcur
  | s :: rest, cur, hcur, cs, hcs => by
    rw [chunkLoop] at hcs
    by_cases hsz : sumLen cur + s.length > size
    · by_cases hemp : cur.isEmpty
      · rw [if_neg (by simp [hsz, hemp])] at hcs
        refine chunkLoop_all_OK size ov rest (cur ++ [s]) ?_ cs hcs
        rw [List.isEmpty_iff] at hemp
        subst hemp
        by_cases hs : s.length > size
        · exact Or.inl ⟨s, by simp, hs⟩
        · exact Or.inr (by rw [List.nil_append, sumLen_cons]; simp [sumLen]; omega)
      · rw [if_pos (by simp [hsz, hemp])] at hcs
        rcases List.mem_cons.mp hcs with rfl | hmem
        · exact hcur
        · refine chunkLoop_all_OK size ov rest (overlapOf ov cur ++ [s]) ?_ cs hmem
          by_cases hs : s.length > size
          · exact Or.inl ⟨s, by simp, hs⟩
          · refine Or.inr ?_
            have hov := overlapOf_le ov cur
            have hnil : sumLen ([] : List PyStr) = 0 := rfl
            rw [sumLen_append, sumLen_cons, hnil]
            omega
    · rw [if_neg (by simp [hsz])] at hcs
      refine chunkLoop_all_OK size ov rest (cur ++ [s]) ?_ cs hcs
      refine Or.inr ?_
      have hnil : sumLen ([] : List PyStr) = 0 := rfl
      rw [sumLen_append, sumLen_cons, hnil]
      omega

/-- Every flushed chunk is a non-empty sentence group. -/
theorem chunkLoop_members_ne_nil (size ov : Nat) : ∀ (sents : List PyStr) (cur : List PyStr),
    ∀ cs ∈ chunkLoop size ov sents cur, cs ≠ []
  | [], cur, cs, hcs => by
    rw [chunkLoop] at hcs
    by_cases h : cur.isEmpty
    · rw [if_pos h] at hcs
      exact absurd hcs (by simp)
    · rw [if_neg h] at hcs
      rw [List.mem_singleton.mp hcs]
      simpa [List.isEmpty_iff] using h
  | s :: rest, cur, cs, hcs => by
    rw [chunkLoop] at hcs
    by_cases hsz : sumLen cur + s.length > size
    · by_cases hemp : cur.isEmpty
      · rw [if_neg (by simp [hsz, hemp])] at hcs
        exact chunkLoop_members_ne_nil size ov rest (cur ++ [s]) cs hcs
      · rw [if_pos (by simp [hsz, hemp])] at hcs
        rcases List.mem_cons.mp hcs with rfl | hmem
        · simpa [List.isEmpty_iff] using hemp
        · exact chunkLoop_members_ne_nil size ov rest (overlapOf ov cur ++ [s]) cs hmem
    · rw [if_neg (by simp [hsz])] at hcs
      exact chunkLoop_members_ne_nil size ov rest (cur ++ [s]) cs hcs

/-- Every chunk dict corresponds to one flushed sentence group, whose
space-join is its content and whose length is its `char_count`. -/
theorem mem_buildChunksAux : ∀ (css : List (List PyStr)) (idx a b : Nat) (c : Chunk),
    c ∈ buildChunksAux idx a b css →
    ∃ cs ∈ css, c.content = joinSp cs ∧ c.char_count = (joinSp cs).length
  | [], _, _, _, c, hc => absurd hc (by simp [buildChunksAux])
  | cs :: rest, idx, a, b, c, hc => by
    rw [buildChunksAux] at hc
    rcases List.mem_cons.mp hc with rfl | hmem
    · exact ⟨cs, by simp, rfl, rfl⟩
    · obtain ⟨cs', h1, h2, h3⟩ := mem_buildChunksAux rest _ _ _ c hmem
      exact ⟨cs', by simp [h1], h2, h3⟩

/-- Conversely, every flushed sentence group becomes a chunk dict. -/
theorem buildChunksAux_covers : ∀ (css : List (List PyStr)) (idx a b : Nat) (cs : List PyStr),
    cs ∈ css → ∃ c ∈ buildChunksAux idx a b css, c.content = joinSp cs
  | [], _, _, _, _, hc => absurd hc (by simp)
  | cs' :: rest, idx, a, b, cs, hc => by
    rw [buildChunksAux]
    rcases List.mem_cons.mp hc with rfl | hmem
    · exact ⟨_, List.mem_cons_self _ _, rfl⟩
    · obtain ⟨c, h1, h2⟩ := buildChunksAux_covers rest (idx + 1) (a + (joinSp cs').length) a cs hmem
      exact ⟨c, List.mem_cons_of_mem _ h1, h2⟩

/-- A sentence in the running accumulator ends up in some flushed chunk. -/
theorem chunkLoop_cur_mem (size ov : Nat) : ∀ (sents : List PyStr) (cur : List PyStr)
    (s : PyStr), s ∈ cur → ∃ cs ∈ chunkLoop size ov sents cur, s ∈ cs
  | [], cur, s, hs => by
    rw [chunkLoop]
    rw [if_neg (by simp [List.isEmpty_iff]; exact List.ne_nil_of_mem hs)]
    exact ⟨cur, by simp, hs⟩
  | a :: rest, cur, s, hs => by
    rw [chunkLoop]
    by_cases hsz : sumLen cur + a.length > size
    · by_cases hemp : cur.isEmpty
      · rw [if_neg (by simp [hsz, hemp])]
        exact chunkLoop_cur_mem size ov rest (cur ++ [a]) s (List.mem_append_left _ hs)
      · rw [if_pos (by simp [hsz, hemp])]
        exact ⟨cur, by simp, hs⟩
    · rw [if_neg (by simp [hsz])]
      exact chunkLoop_cur_mem size ov rest (cur ++ [a]) s (List.mem_append_left _ hs)

/-- Every input sentence ends up, whole, in some flushed chunk. -/
theorem chunkLoop_covers (size ov : Nat) : ∀ (sents : List PyStr) (cur : List PyStr)
    (s : PyStr), s ∈ sents → ∃ cs ∈ chunkLoop size ov sents cur, s ∈ cs
  | [], _, _, hs => absurd hs (by simp)
  | a :: rest, cur, s, hs => by
    rw [chunkLoop]
    rcases List.mem_cons.mp hs with rfl | hmem
    · by_cases hsz : sumLen cur + s.length > size
      · by_cases hemp : cur.isEmpty
        · rw [if_neg (by simp [hsz, hemp])]
          exact chunkLoop_cur_mem size ov rest (cur ++ [s]) s (by simp)
        · rw [if_pos (by simp [hsz, hemp])]
          obtain ⟨cs, h1, h2⟩ :=
            chunkLoop_cur_mem size ov rest (overlapOf ov cur ++ [s]) s (by simp)
          exact ⟨cs, List.mem_cons_of_mem _ h1, h2⟩
      · rw [if_neg (by simp [hsz])]
        exact chunkLoop_cur_mem size ov rest (cur ++ [s]) s (by simp)
    · by_cases hsz : sumLen cur + a.length > size
      · by_cases hemp : cur.isEmpty
        · rw [if_neg (by simp [hsz, hemp])]
          exact chunkLoop_covers size ov rest (cur ++ [a]) s hmem
        · rw [if_pos (by simp [hsz, hemp])]
          obtain ⟨cs, h1, h2⟩ := chunkLoop_covers size ov rest (overlapOf ov cur ++ [a]) s hmem
          exact ⟨cs, List.mem_cons_of_mem _ h1, h2⟩
      · rw [if_neg (by simp [hsz])]
        exact chunkLoop_covers size ov rest (cur ++ [a]) s hmem

/-- A sentence is an infix of the space-join of any group containing it. -/
theorem infix_joinSp : ∀ (cs : List PyStr) (s : PyStr), s ∈ cs → s <:+: joinSp cs
  | [], _, hs => absurd hs (by simp)
  | [a], s, hs => by
    rw [List.mem_singleton.mp hs]
    exact List.infix_refl a
  | a :: b :: t, s, hs => by
    have hj : joinSp (a :: b :: t) = a ++ ' ' :: joinSp (b :: t) := rfl
    rw [hj]
    rcases List.mem_cons.mp hs with rfl | hmem
    · exact (List.prefix_append s (' ' :: joinSp (b :: t))).isInfix
    · refine (infix_joinSp (b :: t) s hmem).trans ?_
      have hsplit : a ++ ' ' :: joinSp (b :: t) = (a ++ [' ']) ++ joinSp (b :: t) := by
        simp
      rw [hsplit]
      exact (List.suffix_append (a ++ [' ']) (joinSp (b :: t))).isInfix

theorem getLast?_cons_of_some {α : Type u} (a : α) :
    ∀ (l : List α) (x : α), l.getLast? = some x → (a :: l).getLast? = some x
  | [], _, h => by simp at h
  | b :: t, x, h => by
    rw [List.getLast?_cons_cons]
    exact h

/-- The last flushed chunk contains the last input sentence (the final
accumulation is always flushed). -/
theorem chunkLoop_last (size ov : Nat) : ∀ (sents : List PyStr) (cur : List PyStr) (s : PyStr),
    sents.getLast? = some s →
    ∃ cs, (chunkLoop size ov sents cur).getLast? = some cs ∧ s ∈ cs
  | [], _, _, h => by simp at h
  | [a], cur, s, h => by
    have hs : a = s := by simpa using h
    subst hs
    rw [chunkLoop]
    by_cases hsz : sumLen cur + a.length > size
    · by_cases hemp : cur.isEmpty
      · rw [if_neg (by simp [hsz, hemp])]
        rw [chunkLoop, if_neg (by simp)]
        exact ⟨cur ++ [a], by simp, by simp⟩
      · rw [if_pos (by simp [hsz, hemp])]
        rw [chunkLoop, if_neg (by simp)]
        refine ⟨overlapOf ov cur ++ [a], ?_, by simp⟩
        rw [List.getLast?_cons_cons]
        simp
    · rw [if_neg (by simp [hsz])]
      rw [chunkLoop, if_neg (by simp)]
      exact ⟨cur ++ [a], by simp, by simp⟩
  | a :: b :: t, cur, s, h => by
    rw [List.getLast?_cons_cons] at h
    rw [chunkLoop]
    by_cases hsz : sumLen cur + a.length > size
    · by_cases hemp : cur.isEmpty
      · rw [if_neg (by simp [hsz, hemp])]
        exact chunkLoop_last size ov (b :: t) (cur ++ [a]) s h
      · rw [if_pos (by simp [hsz, hemp])]
        obtain ⟨cs, h1, h2⟩ := chunkLoop_last size ov (b :: t) (overlapOf ov cur ++ [a]) s h
        exact ⟨cs, getLast?_cons_of_some cur _ cs h1, h2⟩
    · rw [if_neg (by simp [hsz])]
      exact chunkLoop_last size ov (b :: t) (cur ++ [a]) s h

/-- The last chunk dict is built from the last flushed sentence group. -/
theorem buildChunksAux_last : ∀ (css : List (List PyStr)) (idx a b : Nat) (cs : List PyStr),
    css.getLast? = some cs →
    ∃ c, (buildChunksAux idx a b css).getLast? = some c ∧ c.content = joinSp cs
  | [], _, _, _, _, h => by simp at h
  | [cs'], idx, a, b, cs, h => by
    have : cs' = cs := by simpa using h
    subst this
    exact ⟨{ chunk_index := idx, content := joinSp cs', char_count := (joinSp cs').length,
             start_char := b },
           by simp [buildChunksAux], rfl⟩
  | cs' :: cs'' :: t, idx, a, b, cs, h => by
    rw [List.getLast?_cons_cons] at h
    rw [buildChunksAux]
    obtain ⟨c, h1, h2⟩ :=
      buildChunksAux_last (cs'' :: t) (idx + 1) (a + (joinSp cs').length) a cs h
    exact ⟨c, getLast?_cons_of_some _ _ c h1, h2⟩

/-! ### C7 — chunker edge cases -/

/-- C7: `chunk_text` returns the empty sequence exactly when the input is
empty or whitespace-only; every sentence of a non-empty input — in
particular any single sentence longer than `target_size` — appears whole
(as a contiguous infix, never truncated) in some emitted chunk; and the
final accumulation is always flushed: the last sentence appears in the
last emitted chunk. -/
theorem chunk_text_edge_cases (text : PyStr) (chunk_size chunk_overlap : Nat) :
    ((pyStrip text).isEmpty → chunk_text text chunk_size chunk_overlap = [])
    ∧ (∀ s ∈ sentencesOfText (pyStrip text),
        ∃ c ∈ chunk_text text chunk_size chunk_overlap, s <:+: c.content)
    ∧ (∀ s, (sentencesOfText (pyStrip text)).getLast? = some s →
        ∃ c, (chunk_text text chunk_size chunk_overlap).getLast? = some c
          ∧ s <:+: c.content) := by
  have hempty : sentencesOfText [] = [] := rfl
  refine ⟨?_, ?_, ?_⟩
  · intro h
    simp [chunk_text, h]
  · intro s hs
    have hne : ¬(pyStrip text).isEmpty = true := by
      intro h
      rw [List.isEmpty_iff] at h
      rw [h, hempty] at hs
      exact absurd hs (List.not_mem_nil s)
    obtain ⟨cs, hcs, hsmem⟩ :=
      chunkLoop_covers chunk_size chunk_overlap (sentencesOfText (pyStrip text)) [] s hs
    obtain ⟨c, hc, hcontent⟩ := buildChunksAux_covers _ 0 0 0 cs hcs
    refine ⟨c, ?_, hcontent ▸ infix_joinSp cs s hsmem⟩
    rw [chunk_text, if_neg hne]
    exact hc
  · intro s hlast
    have hne : ¬(pyStrip text).isEmpty = true := by
      intro h
      rw [List.isEmpty_iff] at h
      rw [h, hempty] at hlast
      exact absurd hlast (by simp)
    obtain ⟨cs, h1, h2⟩ :=
      chunkLoop_last chunk_size chunk_overlap (sentencesOfText (pyStrip text)) [] s hlast
    obtain ⟨c, h3, h4⟩ := buildChunksAux_last _ 0 0 0 cs h1
    refine ⟨c, ?_, h4 ▸ infix_joinSp cs s h2⟩
    rw [chunk_text, if_neg hne]
    exact h3

unseal splitSentencesAux in
/-- C7 witness: the edge-case theorem evaluated on a whitespace-only
input, and on a concrete input whose first sentence exceeds the target
size of 10 characters (emitted whole) and whose trailing sentence "Ok."
lands in the last chunk. -/
theorem chunk_text_edge_cases_witness :
    chunk_text "   ".data 10 3 = []
    ∧ (∃ c ∈ chunk_text "This single sentence is much longer than ten characters. Ok.".data 10 3,
        "This single sentence is much longer than ten characters.".data <:+: c.content)
    ∧ (∃ c, (chunk_text "This single sentence is much longer than ten characters. Ok.".data 10 3).getLast?
          = some c ∧ "Ok.".data <:+: c.content) :=
  ⟨(chunk_text_edge_cases "   ".data 10 3).1 (by decide),
   (chunk_text_edge_cases "This single sentence is much longer than ten characters. Ok.".data 10 3).2.1
     "This single sentence is much longer than ten characters.".data (by decide),
   (chunk_text_edge_cases "This single sentence is much longer than ten characters. Ok.".data 10 3).2.2
     "Ok.".data (by decide)⟩

/-! ### C6 — chunk size bound -/

/-- C6: every chunk emitted by `chunk_text` corresponds to a flushed
sentence group; unless that group contains a single sentence longer than
`chunk_size`, the chunk's `char_count` is at most `chunk_size` within the
small tolerance of the overlap window plus the joining spaces
(`chunk_overlap + (number of sentences - 1)`). -/
theorem chunk_text_char_count_bound (text : PyStr) (chunk_size chunk_overlap : Nat)
    (c : Chunk) (hc : c ∈ chunk_text text chunk_size chunk_overlap) :
    ∃ cs ∈ chunkLoop chunk_size chunk_overlap (sentencesOfText (pyStrip text)) [],
      c.content = joinSp cs
      ∧ ((∃ s ∈ cs, s.length > chunk_size)
          ∨ c.char_count ≤ chunk_size + chunk_overlap + (cs.length - 1)) := by
  rw [chunk_text] at hc
  by_cases hb : (pyStrip text).isEmpty
  · rw [if_pos hb] at hc
    exact absurd hc (by simp)
  · rw [if_neg hb] at hc
    obtain ⟨cs, hcs, hcontent, hcount⟩ := mem_buildChunksAux _ 0 0 0 c hc
    refine ⟨cs, hcs, hcontent, ?_⟩
    have hok := chunkLoop_all_OK chunk_size chunk_overlap _ []
      (Or.inr (by simp [sumLen])) cs hcs
    simp only [chunkOK] at hok
    rcases hok with hover | hsum
    · exact Or.inl hover
    · refine Or.inr ?_
      have hne := chunkLoop_members_ne_nil chunk_size chunk_overlap _ [] cs hcs
      rw [hcount, joinSp_length cs hne]
      omega

unseal splitSentencesAux in
/-- C6 witness: the bound theorem evaluated on a concrete chunk of a
concrete chunking run (target size 20, overlap 5). -/
theorem chunk_text_char_count_bound_witness :
    ∃ cs ∈ chunkLoop 20 5
        (sentencesOfText (pyStrip "Hello there. How are you? Fine! I am good. Thanks a lot.".data)) [],
      ({ chunk_index := 1, content := "How are you? Fine!".data, char_count := 18,
         start_char := 12 } : Chunk).content = joinSp cs
      ∧ ((∃ s ∈ cs, s.length > 20)
          ∨ ({ chunk_index := 1, content := "How are you? Fine!".data, char_count := 18,
               start_char := 12 } : Chunk).char_count ≤ 20 + 5 + (cs.length - 1)) :=
  chunk_text_char_count_bound
    "Hello there. How are you? Fine! I am good. Thanks a lot.".data 20 5
    { chunk_index := 1, content := "How are you? Fine!".data, char_count := 18, start_char := 12 }
    (by decide)

end LegalAssistant
